import Mathlib

/-!
# Verification of the Screenshot-Analyzer core

A shallow embedding, in Lean 4, of the image-analysis-and-annotation pipeline
and the multi-backend model loader of the Screenshot-Analyzer repository
(`pdfexpy/utils/image_analysis.py`, `pdfexpy/models/model_loader.py`,
`pdfexpy/models/yolo_model.py`), together with theorems settling the
specification claims about them.

Conventions of the embedding:
* Python floats are modelled as exact rationals (`Rat`); decimal literals in
  the source become the corresponding exact decimal rationals.
* Python `int(x)` (truncation toward zero) is `pyTrunc`; `round(x, 2)` is
  `pyRound2` (round half to even, as documented for Python's `round`).
* Python dicts that the code builds with a fixed key set become structures;
  keys that are present only on some code paths become `Option` fields.
* Wall-clock readings and exceptions raised by external libraries are
  supplied by explicit environment records, so every function is total and
  executable.
-/

namespace ScreenshotAnalyzer

/-- Truncation toward zero, Python's `int()` on a numeric value. -/
def pyTrunc (q : Rat) : Int :=
  if 0 ≤ q then ⌊q⌋ else -⌊-q⌋

/-- Python's `abs` on a numeric value, written so that the kernel can
evaluate it on concrete rationals. -/
def ratAbs (q : Rat) : Rat :=
  if q < 0 then -q else q

theorem ratAbs_eq_abs (q : Rat) : ratAbs q = |q| := by
  unfold ratAbs
  split_ifs with h
  · rw [abs_of_neg h]
  · rw [abs_of_nonneg (not_lt.mp h)]

/-- Round to the nearest integer, ties to even (Python's `round` on a value
with fractional part exactly one half). -/
def roundHalfEven (q : Rat) : Int :=
  let f := ⌊q⌋
  let frac := q - f
  if frac < 1/2 then f
  else if 1/2 < frac then f + 1
  else if f % 2 = 0 then f else f + 1

/-- Python's `round(x, 2)`: round to a multiple of 1/100. -/
def pyRound2 (q : Rat) : Rat :=
  (roundHalfEven (q * 100) : Rat) / 100

/-- Axis-aligned bounding box in pixel coordinates, the `bbox` dicts built in
`image_analysis.py` and `yolo_model.py`. -/
structure BBox where
  x : Int
  y : Int
  width : Int
  height : Int
deriving Repr, DecidableEq

/-- One detected object, the per-object dicts of `generate_mock_analysis_results`
and `YOLOModel.detect`. -/
structure DetObj where
  label : String
  confidence : Rat
  bbox : BBox
deriving Repr, DecidableEq

/-- One OCR text region, the region dicts of `generate_mock_analysis_results`. -/
structure OcrRegion where
  text : String
  bbox : BBox
  confidence : Rat
deriving Repr, DecidableEq

/-- The `ocr` sub-dict of an analysis result.  The `confidence` key is present
in the mock result but absent from `build_analysis_results`, hence `Option`. -/
structure OcrResult where
  detected : Bool
  confidence : Option Rat
  text : String
  regions : List OcrRegion
deriving Repr, DecidableEq

/-- The analysis block returned by `build_analysis_results` and by
`generate_mock_analysis_results`. -/
structure AnalysisResults where
  objects : List DetObj
  description : String
  tags : List String
  confidence : Rat
  ocr : OcrResult
deriving Repr, DecidableEq

/-- The `color_info` dict of `get_image_details`.  The numeric statistics are
added only when array-numeric support is available, hence `Option`. -/
structure ColorInfo where
  mode : String
  has_alpha : Bool
  is_grayscale : Bool
  is_rgb : Bool
  avg_color_hex : Option String
  brightness_percent : Option Rat
  color_variance : Option Rat
deriving Repr, DecidableEq

/-- The `image_info` dict of `get_image_details`.  The width-over-height
value is the `aspect_ratio` key. -/
structure ImageInfo where
  width : Nat
  height : Nat
  resolution : String
  aspect_ratio_value : Rat
  format : String
  orientation : String
  color_info : ColorInfo
deriving Repr, DecidableEq

/-- The `file_info` dict of `get_image_details` (the fields the core reads). -/
structure FileInfo where
  filename : String
  filesize_bytes : Nat
  extension : String
deriving Repr, DecidableEq

/-- The dict returned by `get_image_details`. -/
structure ImageDetails where
  file_info : FileInfo
  image_info : ImageInfo
deriving Repr, DecidableEq

/-- The dict returned by `YOLOModel.detect`: the keys `count`, `image_path`
and `model` are present only on some paths, and only `objects` and `error`
are read downstream. -/
structure DetectionResults where
  objects : List DetObj
  error : Option String
  count : Option Nat
  image_path : Option String
  model : Option String
deriving Repr, DecidableEq

/-- `get_aspect_ratio_name` from `image_analysis.py`: round the ratio to two
decimals, then walk the fixed chain of canonical ratios with tolerance 0.03,
first match wins, otherwise format the rounded ratio as a custom name. -/
def get_aspect_ratio_name (r : Rat) : String :=
  let rounded := pyRound2 r
  if ratAbs (rounded - 1.33) ≤ 0.03 then "4:3（標準）"
  else if ratAbs (rounded - 1.78) ≤ 0.03 then "16:9（ワイド）"
  else if ratAbs (rounded - 1.6) ≤ 0.03 then "16:10"
  else if ratAbs (rounded - 1.85) ≤ 0.03 then "1.85:1（映画）"
  else if ratAbs (rounded - 2.35) ≤ 0.03 then "2.35:1（シネマスコープ）"
  else if ratAbs (rounded - 1.0) ≤ 0.03 then "1:1（正方形）"
  else if ratAbs (rounded - 0.75) ≤ 0.03 then "3:4（縦向き標準）"
  else if ratAbs (rounded - 0.56) ≤ 0.03 then "9:16（縦向きワイド）"
  else formatFixed2 rounded ++ ":1"
where
  /-- Python's `f"{q:.2f}"` for the nonnegative multiples of 1/100 that
  `pyRound2` produces. -/
  formatFixed2 (q : Rat) : String :=
    let k : Int := ⌊q * 100⌋
    let ip := k / 100
    let fp := k % 100
    toString ip ++ "." ++ (if fp < 10 then "0" ++ toString fp else toString fp)

/-- The ordered table of canonical ratios named by the specification
(exact values of 4:3, 16:9, 16:10, 1.85:1, 2.35:1, 1:1, 3:4, 9:16). -/
def specAspectTable : List (Rat × String) :=
  [(4/3, "4:3（標準）"), (16/9, "16:9（ワイド）"), (8/5, "16:10"),
   (37/20, "1.85:1（映画）"), (47/20, "2.35:1（シネマスコープ）"), (1, "1:1（正方形）"),
   (3/4, "3:4（縦向き標準）"), (9/16, "9:16（縦向きワイド）")]

/-- The table of decimal reference values that the source code actually
compares against (the literals of the `if` chain). -/
def codeAspectTable : List (Rat × String) :=
  [(1.33, "4:3（標準）"), (1.78, "16:9（ワイド）"), (1.6, "16:10"),
   (1.85, "1.85:1（映画）"), (2.35, "2.35:1（シネマスコープ）"), (1.0, "1:1（正方形）"),
   (0.75, "3:4（縦向き標準）"), (0.56, "9:16（縦向きワイド）")]

/-- First entry of `table` whose reference value is within 0.03 of `r`,
else the fallback name. -/
def firstMatchName (table : List (Rat × String)) (r : Rat) (fb : String) : String :=
  match table with
  | [] => fb
  | (v, name) :: rest =>
      if ratAbs (r - v) ≤ 0.03 then name else firstMatchName rest r fb

/-- Modelled from the spec's words (claim C4): the name is the first table
entry whose reference value is within 0.03 of the raw ratio `r` itself,
otherwise `r` rounded to two decimals formatted as a custom name. -/
def get_aspect_ratio_name_spec (r : Rat) : String :=
  firstMatchName specAspectTable r
    (get_aspect_ratio_name.formatFixed2 (pyRound2 r) ++ ":1")

/-- The per-label first-occurrence counting loop of `build_analysis_results`
(`object_counts`, a Python dict keyed by label in insertion order). -/
def bumpCount : List (String × Nat) → String → List (String × Nat)
  | [], l => [(l, 1)]
  | (k, n) :: rest, l =>
      if k = l then (k, n + 1) :: rest else (k, n) :: bumpCount rest l

/-- Count of objects per label, in order of first occurrence. -/
def objectCounts (objects : List DetObj) : List (String × Nat) :=
  objects.foldl (fun acc obj => bumpCount acc obj.label) []

/-- One phrase of the generated description: "1つの<label>" for a single
occurrence, "<n>個の<label>" otherwise. -/
def describeCount (label : String) (n : Nat) : String :=
  if n = 1 then "1つの" ++ label else toString n ++ "個の" ++ label

/-- The templated description sentence of `build_analysis_results`. -/
def mkDescription (objects : List DetObj) : String :=
  let parts := (objectCounts objects).map (fun p => describeCount p.1 p.2)
  if parts.isEmpty then "この画像には特定のオブジェクトが検出されませんでした。"
  else "この画像には" ++ String.intercalate "、" parts ++ "が含まれています。"

/-- The mean-confidence computation of `build_analysis_results`: arithmetic
mean of the per-object confidences, or 0.0 for an empty list. -/
def avgConfidence (objects : List DetObj) : Rat :=
  if objects.isEmpty then 0
  else (objects.map (fun o => o.confidence)).sum / (objects.length : Rat)

/-- `build_analysis_results` from `image_analysis.py`.  `image_path` and
`image_details` are accepted (as in the source) but not read; the analysis
block is derived from the detection result's `objects` list alone.  Python
builds `tags` as `list(set(...))`, whose iteration order is unspecified; the
embedding fixes the first-occurrence order via `dedup` and theorems about
tags are stated up to set equality. -/
def build_analysis_results (image_path : String) (image_details : ImageDetails)
    (detection_results : DetectionResults) : AnalysisResults :=
  let objects := detection_results.objects
  { objects := objects
    description := mkDescription objects
    tags := (objects.map (fun o => o.label)).dedup
    confidence := avgConfidence objects
    ocr := { detected := false, confidence := none, text := "", regions := [] } }

/-- `int(n * q)` for a pixel count `n` and a proportion literal `q`, as used
by `generate_mock_analysis_results`. -/
def scaledPx (n : Nat) (q : Rat) : Int :=
  pyTrunc ((n : Rat) * q)

/-- `generate_mock_analysis_results` from `image_analysis.py`: three synthetic
objects and a fixed synthetic OCR block, all proportional to the canvas, plus
fixed description, tags and confidence.  Only the width and height of
`image_details` are read; `image_path` is not read at all. -/
def generate_mock_analysis_results (image_path : String)
    (image_details : ImageDetails) : AnalysisResults :=
  let w := image_details.image_info.width
  let h := image_details.image_info.height
  { objects :=
      [ { label := "window", confidence := 0.92,
          bbox := { x := scaledPx w 0.1, y := scaledPx h 0.1,
                    width := scaledPx w 0.8, height := scaledPx h 0.7 } },
        { label := "icon", confidence := 0.85,
          bbox := { x := scaledPx w 0.05, y := scaledPx h 0.1,
                    width := scaledPx w 0.05, height := scaledPx h 0.067 } },
        { label := "text", confidence := 0.76,
          bbox := { x := scaledPx w 0.2, y := scaledPx h 0.15,
                    width := scaledPx w 0.6, height := scaledPx h 0.05 } } ]
    description := "これはデスクトップのスクリーンショットです。ウィンドウ、アイコン、およびテキストが表示されています。"
    tags := ["スクリーンショット", "デスクトップ", "ウィンドウ", "UI"]
    confidence := 0.87
    ocr :=
      { detected := true
        confidence := some 0.72
        text := "サンプルテキスト - デバッグ用のモックデータです。"
        regions :=
          [ { text := "サンプルテキスト",
              bbox := { x := scaledPx w 0.2, y := scaledPx h 0.15,
                        width := scaledPx w 0.3, height := scaledPx h 0.05 },
              confidence := 0.78 },
            { text := "デバッグ用のモックデータです。",
              bbox := { x := scaledPx w 0.2, y := scaledPx h 0.2,
                        width := scaledPx w 0.4, height := scaledPx h 0.05 },
              confidence := 0.65 } ] } }

/-- The brightness bucket of the `debug_info` block built by `analyze_image`:
`"bright"` above 70, `"medium"` above 30, else `"dark"`, over
`color_info.get("brightness_percent", 50)`. -/
def estimated_brightness (brightness_percent : Option Rat) : String :=
  let v := brightness_percent.getD 50
  if v > 70 then "bright" else if v > 30 then "medium" else "dark"

/-- The colour-variance bucket of the `debug_info` block built by
`analyze_image`: `"high"` above 80, `"medium"` above 40, else `"low"`, over
`color_info.get("color_variance", 50)`. -/
def color_variance_bucket (color_variance : Option Rat) : String :=
  let v := color_variance.getD 50
  if v > 80 then "high" else if v > 40 then "medium" else "low"

/-- The OCR-overlay guard of `generate_visual_feedback`: OCR regions are drawn
only when the report's OCR block is marked detected. -/
def ocrRegionsToDraw (analysis : AnalysisResults) : List OcrRegion :=
  if analysis.ocr.detected then analysis.ocr.regions else []

/-! ## The model loader (`pdfexpy/models/model_loader.py`) -/

/-- The configuration keys that `model_loader.py` reads:
`app.headless_mode` (default false), `analysis.mock_in_headless`
(default true) and `models.<name>.enabled` (default true).  A `None`
configuration is modelled as `Option.none` at the call sites. -/
structure AppConfig where
  headless_mode : Bool
  mock_in_headless : Bool
  mobilenet_enabled : Bool
  cocossd_enabled : Bool
  tesseract_enabled : Bool
deriving Repr, DecidableEq

/-- `config and config.get("app", {}).get("headless_mode", False)`:
falsy when the configuration is `None`. -/
def headlessFlag : Option AppConfig → Bool
  | none => false
  | some c => c.headless_mode

/-- `config and config.get("analysis", {}).get("mock_in_headless", True)`:
falsy when the configuration is `None`. -/
def mockInHeadlessFlag : Option AppConfig → Bool
  | none => false
  | some c => c.mock_in_headless

/-- `self.config.get("models", {}).get(name, {}).get("enabled", True)`
(`ModelLoader.__init__` replaces a `None` configuration by `{}`). -/
def mobilenetEnabled : Option AppConfig → Bool
  | none => true
  | some c => c.mobilenet_enabled

def cocossdEnabled : Option AppConfig → Bool
  | none => true
  | some c => c.cocossd_enabled

def tesseractEnabled : Option AppConfig → Bool
  | none => true
  | some c => c.tesseract_enabled

/-- What the external world does during one backend-load attempt:
either the dependency module is missing at import time (the loader raises its
own fixed message), or the dynamic import fails (the loader wraps the text in
its own message), or initialization plus self-test raises some other
exception whose `str` is `e`, or everything succeeds. -/
inductive LoadExn where
  | depUnavailable
  | importFailed (e : String)
  | other (e : String)
deriving Repr, DecidableEq

/-- Environment of one backend-load attempt: the wall-clock readings taken at
the start and at the end of the `try` block, and the exception raised inside
it, if any. -/
structure BackendEnv where
  t0 : Rat
  t1 : Rat
  failure : Option LoadExn
deriving Repr, DecidableEq

/-- Whether the text that `str(e)` would yield for this exception is
non-empty.  The loader's own messages (`depUnavailable`, `importFailed`)
always are; for a generic exception it depends on the text. -/
def LoadExn.nonEmptyText : LoadExn → Bool
  | LoadExn.depUnavailable => true
  | LoadExn.importFailed _ => true
  | LoadExn.other e => decide (e ≠ "")

/-- Physical sanity of a load environment: the wall clock does not run
backwards during the attempt, and an exception raised by the external
library carries a non-empty text. -/
def BackendEnv.wf (env : BackendEnv) : Prop :=
  env.t0 ≤ env.t1 ∧ env.failure.all LoadExn.nonEmptyText = true

/-- The dict returned by the `load_*_model` coroutines.  `model`, `elapsed`
and `error` are absent on some paths, hence `Option`; the `stack_trace` key
is omitted (diagnostic text only). -/
structure LoadResult where
  success : Bool
  model : Option String
  elapsed : Option Rat
  error : Option String
  message : String
deriving Repr, DecidableEq

/-- A per-backend record of `ModelLoader.model_status`. -/
structure ModelStatus where
  loaded : Bool
  error : Option String
  time : Option Rat
deriving Repr, DecidableEq

/-- The whole `model_status` dict. -/
structure StatusMap where
  mobilenet : ModelStatus
  cocossd : ModelStatus
  tesseract : ModelStatus
deriving Repr, DecidableEq

/-- The `model_status` dict as `ModelLoader.__init__` creates it. -/
def initialStatus : StatusMap :=
  { mobilenet := { loaded := false, error := none, time := none }
    cocossd := { loaded := false, error := none, time := none }
    tesseract := { loaded := false, error := none, time := none } }

/-- The error text recorded for a load failure, per exception kind.
`unavailableMsg` is the loader's own "dependency not installed" literal and
`importWrap` its "cannot import" literal. -/
def loadErrMsg (unavailableMsg importWrap : String) : LoadExn → String
  | LoadExn.depUnavailable => unavailableMsg
  | LoadExn.importFailed e => importWrap ++ e
  | LoadExn.other e => e

/-- The body shared by `load_mobilenet_model`, `load_cocossd_model` and
`load_tesseract_model`: if the backend is disabled, return a bare failure
without touching the status record; otherwise run the attempt and record
the outcome (with elapsed wall-clock time) in both the returned dict and
the status record. -/
def load_backend_model (name unavailableMsg importWrap : String)
    (enabled : Bool) (env : BackendEnv) (status : ModelStatus) :
    LoadResult × ModelStatus :=
  if !enabled then
    ({ success := false, model := none, elapsed := none, error := none,
       message := "モデルは無効化されています" }, status)
  else
    let elapsed := env.t1 - env.t0
    match env.failure with
    | none =>
        ({ success := true, model := some name, elapsed := some elapsed,
           error := none, message := "モデルのロードが完了しました" },
         { loaded := true, error := none, time := some elapsed })
    | some f =>
        let msg := loadErrMsg unavailableMsg importWrap f
        ({ success := false, model := some name, elapsed := some elapsed,
           error := some msg, message := "モデルのロードに失敗しました: " ++ msg },
         { loaded := false, error := some msg, time := some elapsed })

/-- `ModelLoader.load_mobilenet_model`. -/
def load_mobilenet_model (cfg : Option AppConfig) (env : BackendEnv)
    (st : StatusMap) : LoadResult × StatusMap :=
  let p := load_backend_model "mobilenet"
    "TensorFlow/TensorFlow.jsがインストールされていません"
    "MobileNetモデルをインポートできません: "
    (mobilenetEnabled cfg) env st.mobilenet
  (p.1, { st with mobilenet := p.2 })

/-- `ModelLoader.load_cocossd_model`. -/
def load_cocossd_model (cfg : Option AppConfig) (env : BackendEnv)
    (st : StatusMap) : LoadResult × StatusMap :=
  let p := load_backend_model "cocossd"
    "TensorFlow/TensorFlow.jsがインストールされていません"
    "COCO-SSDモデルをインポートできません: "
    (cocossdEnabled cfg) env st.cocossd
  (p.1, { st with cocossd := p.2 })

/-- `ModelLoader.load_tesseract_model`. -/
def load_tesseract_model (cfg : Option AppConfig) (env : BackendEnv)
    (st : StatusMap) : LoadResult × StatusMap :=
  let p := load_backend_model "tesseract"
    "pytesseractがインストールされていません"
    "Tesseractのバージョン・言語情報を取得できません: "
    (tesseractEnabled cfg) env st.tesseract
  (p.1, { st with tesseract := p.2 })

/-- `ModelLoader.load_models` with the default list: the three backends,
strictly sequentially, in the fixed order mobilenet, cocossd, tesseract. -/
def load_models (cfg : Option AppConfig) (envM envC envT : BackendEnv)
    (st : StatusMap) : List (String × LoadResult) × StatusMap :=
  let pM := load_mobilenet_model cfg envM st
  let pC := load_cocossd_model cfg envC pM.2
  let pT := load_tesseract_model cfg envT pC.2
  ([("mobilenet", pM.1), ("cocossd", pC.1), ("tesseract", pT.1)], pT.2)

/-- The skip message of the headless short-circuit of `test_model_loading`
("skipped in headless mode"). -/
def headlessSkipMsg : String := "ヘッドレスモードでスキップされました"

/-- The shapes of dicts `test_model_loading` can return.  The `real…`
constructors are the only paths on which a `ModelLoader` is constructed and
a real backend load is attempted. -/
inductive TestLoadReport where
  | invalid (name : String) (message : String)
  | skippedSingle (name : String) (message : String)
  | skippedAll (entries : List (String × Bool × String))
  | realSingle (res : LoadResult) (st : StatusMap)
  | realAll (results : List (String × LoadResult)) (allSuccess : Bool) (st : StatusMap)
deriving Repr, DecidableEq

/-- The top-level `success` key of the dict `test_model_loading` returns. -/
def TestLoadReport.success : TestLoadReport → Bool
  | TestLoadReport.invalid _ _ => false
  | TestLoadReport.skippedSingle _ _ => true
  | TestLoadReport.skippedAll _ => true
  | TestLoadReport.realSingle r _ => r.success
  | TestLoadReport.realAll _ s _ => s

/-- Whether the path taken constructed a `ModelLoader` and reached real
backend-loading code. -/
def TestLoadReport.touchedBackend : TestLoadReport → Bool
  | TestLoadReport.realSingle _ _ => true
  | TestLoadReport.realAll _ _ _ => true
  | _ => false

/-- `test_model_loading` from `model_loader.py`.  The three environments feed
the three backend loads of the non-short-circuit path (unused when the
headless short-circuit fires). -/
def test_model_loading (model_name : String) (force_load : Bool)
    (cfg : Option AppConfig) (envM envC envT : BackendEnv) : TestLoadReport :=
  if model_name ∉ ["mobilenet", "cocossd", "tesseract", "all"] then
    TestLoadReport.invalid model_name
      ("モデル '" ++ model_name ++ "' は認識されません")
  else if headlessFlag cfg && mockInHeadlessFlag cfg && !force_load then
    if model_name = "all" then
      TestLoadReport.skippedAll
        [("mobilenet", true, headlessSkipMsg),
         ("cocossd", true, headlessSkipMsg),
         ("tesseract", true, headlessSkipMsg)]
    else
      TestLoadReport.skippedSingle model_name
        ("モデル '" ++ model_name ++ "' のロードはヘッドレスモードでスキップされました")
  else if model_name = "all" then
    let p := load_models cfg envM envC envT initialStatus
    TestLoadReport.realAll p.1 (p.1.all (fun kv => kv.2.success)) p.2
  else if model_name = "mobilenet" then
    let p := load_mobilenet_model cfg envM initialStatus
    TestLoadReport.realSingle p.1 p.2
  else if model_name = "cocossd" then
    let p := load_cocossd_model cfg envC initialStatus
    TestLoadReport.realSingle p.1 p.2
  else
    let p := load_tesseract_model cfg envT initialStatus
    TestLoadReport.realSingle p.1 p.2

/-! ## The YOLO detection boundary (`pdfexpy/models/yolo_model.py`) -/

/-- One raw box of the backend's native output: corner coordinates, a
confidence and a class name. -/
structure RawBox where
  x1 : Rat
  y1 : Rat
  x2 : Rat
  y2 : Rat
  conf : Rat
  label : String
deriving Repr, DecidableEq

/-- Environment of one `YOLOModel.detect` call: whether a `load()` attempt
would succeed, and what the inference call does — raise an exception whose
`str` is the given text, or return the raw boxes. -/
structure YoloEnv where
  loadOk : Bool
  inference : Except String (List RawBox)
deriving Repr

/-- `YOLOModel.detect`: if the model is not loaded and cannot be loaded,
degrade to an empty object list with a fixed error text; if inference raises,
degrade to an empty object list carrying the exception text; otherwise map
each raw box to the common object shape, truncating coordinates to integer
pixels. -/
def YOLOModel.detect (is_loaded : Bool) (env : YoloEnv)
    (image_path : String) : DetectionResults :=
  if !is_loaded && !env.loadOk then
    { objects := [], error := some "モデルがロードされていません",
      count := none, image_path := none, model := none }
  else
    match env.inference with
    | Except.error e =>
        { objects := [], error := some e,
          count := none, image_path := some image_path, model := none }
    | Except.ok boxes =>
        let detected := boxes.map (fun b =>
          { label := b.label, confidence := b.conf,
            bbox := { x := pyTrunc b.x1, y := pyTrunc b.y1,
                      width := pyTrunc (b.x2 - b.x1),
                      height := pyTrunc (b.y2 - b.y1) } })
        { objects := detected, error := none,
          count := some detected.length, image_path := some image_path,
          model := some "yolov8" }

/-! ## Sample inputs used by concrete witnesses and counterexamples -/

/-- A 640 by 480 landscape image's details, as `get_image_details` would
produce them for a white PNG. -/
def details640 : ImageDetails :=
  { file_info := { filename := "shot.png", filesize_bytes := 1000, extension := ".png" }
    image_info :=
      { width := 640, height := 480, resolution := "640x480",
        aspect_ratio_value := 4/3, format := "PNG", orientation := "landscape",
        color_info :=
          { mode := "RGB", has_alpha := false, is_grayscale := false, is_rgb := true,
            avg_color_hex := some "#ffffff", brightness_percent := some 99,
            color_variance := some 12 } } }

/-- Details of a different file with the same canvas size as `details640`
but different metadata everywhere else. -/
def details640b : ImageDetails :=
  { file_info := { filename := "other.bmp", filesize_bytes := 5, extension := ".bmp" }
    image_info :=
      { width := 640, height := 480, resolution := "different",
        aspect_ratio_value := 0, format := "BMP", orientation := "portrait",
        color_info :=
          { mode := "L", has_alpha := true, is_grayscale := true, is_rgb := false,
            avg_color_hex := none, brightness_percent := none,
            color_variance := none } } }

/-- A placeholder box for sample detection results. -/
def sampleBBox : BBox := { x := 0, y := 0, width := 10, height := 10 }

/-- A detection result with three objects of confidences 0.9, 0.8, 0.7. -/
def det3 : DetectionResults :=
  { objects :=
      [ { label := "person", confidence := 0.9, bbox := sampleBBox },
        { label := "laptop", confidence := 0.8, bbox := sampleBBox },
        { label := "person", confidence := 0.7, bbox := sampleBBox } ]
    error := none, count := some 3, image_path := some "shot.png",
    model := some "yolov8" }

/-- A detection result with no objects and a recorded error. -/
def det0 : DetectionResults :=
  { objects := [], error := some "モデルがロードされていません",
    count := none, image_path := none, model := none }

/-! ## Helper lemmas for evaluating the rounding functions -/

theorem roundHalfEven_eq_of_lt_half (q : Rat) (n : Int) (h1 : (n : Rat) ≤ q)
    (h2 : q - n < 1/2) : roundHalfEven q = n := by
  have hf : ⌊q⌋ = n := Int.floor_eq_iff.mpr ⟨h1, by linarith⟩
  simp only [roundHalfEven, hf]
  rw [if_pos h2]

theorem pyRound2_eq_of_lt_half (q : Rat) (k : Int) (h1 : (k : Rat) ≤ q * 100)
    (h2 : q * 100 - k < 1/2) : pyRound2 q = (k : Rat) / 100 := by
  unfold pyRound2
  rw [roundHalfEven_eq_of_lt_half (q * 100) k h1 h2]

/-! ## Claims -/

/-- C1: the report's aggregate confidence equals the arithmetic mean of the
per-object confidences when the object list is non-empty, and is exactly 0.0
when the object list is empty. -/
theorem C1_aggregate_confidence (p : String) (d : ImageDetails)
    (det : DetectionResults) :
    (det.objects ≠ [] →
      (build_analysis_results p d det).confidence =
        (det.objects.map (fun o => o.confidence)).sum / (det.objects.length : Rat)) ∧
    (det.objects = [] → (build_analysis_results p d det).confidence = 0) := by
  constructor
  · intro h
    simp [build_analysis_results, avgConfidence, h]
  · intro h
    simp [build_analysis_results, avgConfidence, h]

/-- Witness for C1 on the spec's example: confidences 0.9, 0.8, 0.7 give a
mean of exactly 0.8 (hence within 1e-6), and an empty detection set gives
exactly 0. -/
theorem C1_aggregate_confidence_witness :
    (build_analysis_results "shot.png" details640 det3).confidence = 0.8 ∧
    |(build_analysis_results "shot.png" details640 det3).confidence - 0.8| ≤ 1/1000000 ∧
    (build_analysis_results "shot.png" details640 det0).confidence = 0 := by
  have h1 := (C1_aggregate_confidence "shot.png" details640 det3).1 (by decide)
  have h0 := (C1_aggregate_confidence "shot.png" details640 det0).2 rfl
  have hA : (build_analysis_results "shot.png" details640 det3).confidence = 0.8 := by
    rw [h1]; norm_num [det3]
  refine ⟨hA, ?_, h0⟩
  rw [hA]; norm_num

/-- C2: for every image size, the mock detection provider returns exactly
three objects labelled "window", "icon" and "text" whose boxes are the fixed
proportions of the canvas used by the source (window 10%/10%/80%/70%, icon
5%/10%/5%/6.7%, text strip 20%/15%/60%/5%), plus an OCR block marked detected
that contains exactly two placeholder-text regions. -/
theorem C2_mock_shape (p : String) (d : ImageDetails) :
    (generate_mock_analysis_results p d).objects.map (fun o => o.label) =
      ["window", "icon", "text"] ∧
    (generate_mock_analysis_results p d).objects.length = 3 ∧
    (generate_mock_analysis_results p d).objects.map (fun o => o.bbox) =
      [ { x := scaledPx d.image_info.width 0.1, y := scaledPx d.image_info.height 0.1,
          width := scaledPx d.image_info.width 0.8, height := scaledPx d.image_info.height 0.7 },
        { x := scaledPx d.image_info.width 0.05, y := scaledPx d.image_info.height 0.1,
          width := scaledPx d.image_info.width 0.05, height := scaledPx d.image_info.height 0.067 },
        { x := scaledPx d.image_info.width 0.2, y := scaledPx d.image_info.height 0.15,
          width := scaledPx d.image_info.width 0.6, height := scaledPx d.image_info.height 0.05 } ] ∧
    (generate_mock_analysis_results p d).ocr.detected = true ∧
    (generate_mock_analysis_results p d).ocr.regions.length = 2 ∧
    (generate_mock_analysis_results p d).ocr.regions.map (fun r => r.text) =
      ["サンプルテキスト", "デバッグ用のモックデータです。"] :=
  ⟨rfl, rfl, rfl, rfl, rfl, rfl⟩

/-- C3 counterexample: in mock mode the tags are the fixed placeholder list,
not the distinct labels of the detected objects — "window" is a detected
object's label yet is not among the tags. -/
theorem C3_counterexample :
    "window" ∈ (generate_mock_analysis_results "shot.png" details640).objects.map
      (fun o => o.label) ∧
    (generate_mock_analysis_results "shot.png" details640).tags =
      ["スクリーンショット", "デスクトップ", "ウィンドウ", "UI"] ∧
    "window" ∉ (generate_mock_analysis_results "shot.png" details640).tags := by
  decide

/-- C3 amended: in mock mode the report's tags are the fixed placeholder list
スクリーンショット, デスクトップ, ウィンドウ, UI, independent of the detected
objects' labels; the rule tags = distinct labels holds for the real-mode
report builder `build_analysis_results`. -/
theorem C3_amended_tags (p : String) (d : ImageDetails) (p2 : String)
    (d2 : ImageDetails) (det : DetectionResults) :
    (generate_mock_analysis_results p d).tags =
      ["スクリーンショット", "デスクトップ", "ウィンドウ", "UI"] ∧
    (build_analysis_results p2 d2 det).tags.toFinset =
      (det.objects.map (fun o => o.label)).toFinset ∧
    (build_analysis_results p2 d2 det).tags.Nodup := by
  refine ⟨rfl, ?_, ?_⟩
  · ext a
    simp [build_analysis_results, List.mem_dedup]
  · exact List.nodup_dedup _

/-- C4 counterexample: at ratio 0.593 no canonical reference value (as a true
ratio) is within 0.03, so the claim requires the fallback name "0.59:1", but
the code — which compares the two-decimal rounding 0.59 against the decimal
literal 0.56 — names it 9:16. -/
theorem C4_counterexample :
    (∀ pr ∈ specAspectTable, ¬ ratAbs ((593/1000 : Rat) - pr.1) ≤ 0.03) ∧
    get_aspect_ratio_name (593/1000) = "9:16（縦向きワイド）" ∧
    get_aspect_ratio_name_spec (593/1000) = "0.59:1" ∧
    get_aspect_ratio_name (593/1000) ≠ get_aspect_ratio_name_spec (593/1000) := by
  have hr : pyRound2 (593/1000 : Rat) = (59 : Int) / 100 :=
    pyRound2_eq_of_lt_half _ 59 (by norm_num) (by norm_num)
  have hff : get_aspect_ratio_name.formatFixed2 (((59 : Int) : Rat) / 100) = "0.59" := by
    have hk : ⌊((59 : Int) : Rat) / 100 * 100⌋ = 59 := by
      rw [show (((59 : Int) : Rat) / 100 * 100) = ((59 : Int) : Rat) by norm_num]
      exact Int.floor_intCast 59
    simp only [get_aspect_ratio_name.formatFixed2, hk]
    norm_num
    rfl
  have hcode : get_aspect_ratio_name (593/1000 : Rat) = "9:16（縦向きワイド）" := by
    simp only [get_aspect_ratio_name, hr]
    norm_num [ratAbs]
  have hspec : get_aspect_ratio_name_spec (593/1000 : Rat) = "0.59:1" := by
    simp only [get_aspect_ratio_name_spec, specAspectTable, firstMatchName, hr, hff]
    norm_num [ratAbs]
    rfl
  refine ⟨?_, hcode, hspec, ?_⟩
  · intro pr hpr
    simp only [specAspectTable, List.mem_cons, List.not_mem_nil, or_false] at hpr
    rcases hpr with rfl | rfl | rfl | rfl | rfl | rfl | rfl | rfl <;> norm_num [ratAbs]
  · rw [hcode, hspec]
    decide

/-- C4 amended: the aspect-ratio name is the first entry of the fixed ordered
table of decimal reference values 1.33, 1.78, 1.6, 1.85, 2.35, 1.0, 0.75,
0.56 that lies within 0.03 of the ratio rounded to two decimals (not of the
raw ratio); if none does, it is the rounded ratio formatted as a custom
"<ratio in 2dp>:1" name. -/
theorem C4_amended_first_match (q : Rat) :
    get_aspect_ratio_name q =
      firstMatchName codeAspectTable (pyRound2 q)
        (get_aspect_ratio_name.formatFixed2 (pyRound2 q) ++ ":1") :=
  rfl

/-- C5: with headless mode on, the mock-in-headless policy on and the
force-load flag off, testing all backends short-circuits to the synthetic
"skipped" success — overall success true, each of the three backends
individually successful with the skip message — without constructing a
`ModelLoader` or touching any real backend. -/
theorem C5_headless_skip (c : AppConfig) (envM envC envT : BackendEnv)
    (hh : c.headless_mode = true) (hm : c.mock_in_headless = true) :
    test_model_loading "all" false (some c) envM envC envT =
      TestLoadReport.skippedAll
        [("mobilenet", true, headlessSkipMsg),
         ("cocossd", true, headlessSkipMsg),
         ("tesseract", true, headlessSkipMsg)] ∧
    (test_model_loading "all" false (some c) envM envC envT).success = true ∧
    (test_model_loading "all" false (some c) envM envC envT).touchedBackend = false := by
  have hrep : test_model_loading "all" false (some c) envM envC envT =
      TestLoadReport.skippedAll
        [("mobilenet", true, headlessSkipMsg),
         ("cocossd", true, headlessSkipMsg),
         ("tesseract", true, headlessSkipMsg)] := by
    simp [test_model_loading, headlessFlag, mockInHeadlessFlag, hh, hm]
  exact ⟨hrep, by rw [hrep]; rfl, by rw [hrep]; rfl⟩

/-- Witness for C5 at a concrete configuration and arbitrary concrete
environments. -/
theorem C5_headless_skip_witness :
    test_model_loading "all" false
        (some { headless_mode := true, mock_in_headless := true,
                mobilenet_enabled := true, cocossd_enabled := true,
                tesseract_enabled := true })
        { t0 := 0, t1 := 1, failure := some LoadExn.depUnavailable }
        { t0 := 0, t1 := 1, failure := some LoadExn.depUnavailable }
        { t0 := 0, t1 := 1, failure := some LoadExn.depUnavailable } =
      TestLoadReport.skippedAll
        [("mobilenet", true, headlessSkipMsg),
         ("cocossd", true, headlessSkipMsg),
         ("tesseract", true, headlessSkipMsg)] :=
  (C5_headless_skip
    { headless_mode := true, mock_in_headless := true,
      mobilenet_enabled := true, cocossd_enabled := true,
      tesseract_enabled := true }
    { t0 := 0, t1 := 1, failure := some LoadExn.depUnavailable }
    { t0 := 0, t1 := 1, failure := some LoadExn.depUnavailable }
    { t0 := 0, t1 := 1, failure := some LoadExn.depUnavailable }
    rfl rfl).1

/-- The no-objects report that `build_analysis_results` produces from a
degraded detection result. -/
def emptyReport : AnalysisResults :=
  { objects := [], description := "この画像には特定のオブジェクトが検出されませんでした。",
    tags := [], confidence := 0,
    ocr := { detected := false, confidence := none, text := "", regions := [] } }

/-- C6: whenever real-backend detection fails — the backend cannot be loaded,
or inference raises — `detect` returns an empty object list together with a
non-empty error text instead of raising, and the report builder still
produces a (degraded) report from that result. -/
theorem C6_detect_degrades (is_loaded : Bool) (env : YoloEnv)
    (ipath rpath : String) (d : ImageDetails)
    (hfail : (is_loaded = false ∧ env.loadOk = false) ∨
      ∃ e, env.inference = Except.error e)
    (hne : ∀ e, env.inference = Except.error e → e ≠ "") :
    (YOLOModel.detect is_loaded env ipath).objects = [] ∧
    (∃ m, (YOLOModel.detect is_loaded env ipath).error = some m ∧ m ≠ "") ∧
    build_analysis_results rpath d (YOLOModel.detect is_loaded env ipath) =
      emptyReport := by
  by_cases hcond : (!is_loaded && !env.loadOk) = true
  · have hres : YOLOModel.detect is_loaded env ipath =
        { objects := [], error := some "モデルがロードされていません",
          count := none, image_path := none, model := none } := by
      simp [YOLOModel.detect, hcond]
    exact ⟨by rw [hres], ⟨_, by rw [hres], by decide⟩, by rw [hres]; rfl⟩
  · rcases hfail with ⟨h1, h2⟩ | ⟨e, he⟩
    · exact absurd (by simp [h1, h2]) hcond
    · have hres : YOLOModel.detect is_loaded env ipath =
          { objects := [], error := some e,
            count := none, image_path := some ipath, model := none } := by
        simp [YOLOModel.detect, hcond, he]
      exact ⟨by rw [hres], ⟨e, by rw [hres], hne e he⟩, by rw [hres]; rfl⟩

/-- A detect environment in which the backend is not loadable and inference
would raise. -/
def envFailY : YoloEnv := { loadOk := false, inference := Except.error "CUDA error" }

/-- Witness for C6 at a concrete failing environment. -/
theorem C6_detect_degrades_witness :
    (YOLOModel.detect false envFailY "shot.png").objects = [] ∧
    (∃ m, (YOLOModel.detect false envFailY "shot.png").error = some m ∧ m ≠ "") ∧
    build_analysis_results "shot.png" details640
      (YOLOModel.detect false envFailY "shot.png") = emptyReport := by
  refine C6_detect_degrades false envFailY "shot.png" "shot.png" details640
    (Or.inl ⟨rfl, rfl⟩) ?_
  intro e h
  rw [show envFailY.inference = Except.error "CUDA error" from rfl] at h
  injection h with h2
  rw [← h2]
  decide

/-- C7: loading an enabled backend (mobilenet here) always yields either a
failure carrying a non-empty error text and a nonnegative elapsed time, or a
success with no error and a nonnegative elapsed time, and the registry's
status record for that backend is updated to match. -/
theorem C7_load_outcome (cfg : Option AppConfig) (env : BackendEnv)
    (st : StatusMap) (hen : mobilenetEnabled cfg = true) (hwf : env.wf) :
    ((load_mobilenet_model cfg env st).1.success = false ∧
      ∃ m el, (load_mobilenet_model cfg env st).1.error = some m ∧ m ≠ "" ∧
        (load_mobilenet_model cfg env st).1.elapsed = some el ∧ 0 ≤ el ∧
        (load_mobilenet_model cfg env st).2.mobilenet =
          { loaded := false, error := some m, time := some el }) ∨
    ((load_mobilenet_model cfg env st).1.success = true ∧
      (load_mobilenet_model cfg env st).1.error = none ∧
      ∃ el, (load_mobilenet_model cfg env st).1.elapsed = some el ∧ 0 ≤ el ∧
        (load_mobilenet_model cfg env st).2.mobilenet =
          { loaded := true, error := none, time := some el }) := by
  obtain ⟨hclock, hmsg⟩ := hwf
  have hel : (0 : Rat) ≤ env.t1 - env.t0 := sub_nonneg.mpr hclock
  rcases hf : env.failure with _ | f
  · right
    refine ⟨?_, ?_, env.t1 - env.t0, ?_, hel, ?_⟩ <;>
      simp [load_mobilenet_model, load_backend_model, hen, hf]
  · left
    have hm : loadErrMsg "TensorFlow/TensorFlow.jsがインストールされていません"
        "MobileNetモデルをインポートできません: " f ≠ "" := by
      rcases f with _ | e | e
      · decide
      · intro hcontra
        simp only [loadErrMsg] at hcontra
        have hlen := congrArg String.length hcontra
        rw [String.length_append, String.length_empty] at hlen
        have hpos : 0 < ("MobileNetモデルをインポートできません: ").length := by decide
        omega
      · rw [hf] at hmsg
        simpa [Option.all, LoadExn.nonEmptyText] using hmsg
    refine ⟨?_,
      loadErrMsg "TensorFlow/TensorFlow.jsがインストールされていません"
        "MobileNetモデルをインポートできません: " f,
      env.t1 - env.t0, ?_, hm, ?_, hel, ?_⟩ <;>
      simp [load_mobilenet_model, load_backend_model, hen, hf]

/-- A load environment in which the dependency is absent. -/
def envDep : BackendEnv := { t0 := 0, t1 := 1, failure := some LoadExn.depUnavailable }

/-- Witness for C7 at a concrete environment (dependency absent, clock
advancing from 0 to 1) with the default configuration. -/
theorem C7_load_outcome_witness :
    ((load_mobilenet_model none envDep initialStatus).1.success = false ∧
      ∃ m el, (load_mobilenet_model none envDep initialStatus).1.error = some m ∧ m ≠ "" ∧
        (load_mobilenet_model none envDep initialStatus).1.elapsed = some el ∧ 0 ≤ el ∧
        (load_mobilenet_model none envDep initialStatus).2.mobilenet =
          { loaded := false, error := some m, time := some el }) ∨
    ((load_mobilenet_model none envDep initialStatus).1.success = true ∧
      (load_mobilenet_model none envDep initialStatus).1.error = none ∧
      ∃ el, (load_mobilenet_model none envDep initialStatus).1.elapsed = some el ∧ 0 ≤ el ∧
        (load_mobilenet_model none envDep initialStatus).2.mobilenet =
          { loaded := true, error := none, time := some el }) :=
  C7_load_outcome none envDep initialStatus rfl ⟨by norm_num [envDep], rfl⟩

/-- C8 counterexample: at a brightness percent of exactly 70 the debug block
says "medium", not "bright", and at a colour variance of exactly 80 it says
"medium", not "high" — the code's thresholds are strict. -/
theorem C8_counterexample :
    (70 : Rat) ≥ 70 ∧ estimated_brightness (some 70) = "medium" ∧
    estimated_brightness (some 70) ≠ "bright" ∧
    (80 : Rat) ≥ 80 ∧ color_variance_bucket (some 80) = "medium" ∧
    color_variance_bucket (some 80) ≠ "high" := by
  decide

/-- C8 amended: the debug block classifies brightness as "bright" strictly
above 70, "medium" strictly above 30 and up to 70, and "dark" at 30 or below;
and colour variance as "high" strictly above 80, "medium" strictly above 40
and up to 80, and "low" at 40 or below. -/
theorem C8_strict_buckets (bp cv : Rat) :
    (70 < bp → estimated_brightness (some bp) = "bright") ∧
    (30 < bp → bp ≤ 70 → estimated_brightness (some bp) = "medium") ∧
    (bp ≤ 30 → estimated_brightness (some bp) = "dark") ∧
    (80 < cv → color_variance_bucket (some cv) = "high") ∧
    (40 < cv → cv ≤ 80 → color_variance_bucket (some cv) = "medium") ∧
    (cv ≤ 40 → color_variance_bucket (some cv) = "low") := by
  refine ⟨?_, ?_, ?_, ?_, ?_, ?_⟩
  · intro h
    simp [estimated_brightness, h]
  · intro h1 h2
    simp [estimated_brightness, h1, not_lt.mpr h2]
  · intro h
    have h70 : bp ≤ 70 := le_trans h (by norm_num)
    simp [estimated_brightness, not_lt.mpr h, not_lt.mpr h70]
  · intro h
    simp [color_variance_bucket, h]
  · intro h1 h2
    simp [color_variance_bucket, h1, not_lt.mpr h2]
  · intro h
    have h80 : cv ≤ 80 := le_trans h (by norm_num)
    simp [color_variance_bucket, not_lt.mpr h, not_lt.mpr h80]

/-- Witness for C8 amended, one value inside each bucket. -/
theorem C8_strict_buckets_witness :
    estimated_brightness (some 75) = "bright" ∧
    estimated_brightness (some 50) = "medium" ∧
    estimated_brightness (some 20) = "dark" ∧
    color_variance_bucket (some 90) = "high" ∧
    color_variance_bucket (some 60) = "medium" ∧
    color_variance_bucket (some 10) = "low" :=
  ⟨(C8_strict_buckets 75 90).1 (by norm_num),
   (C8_strict_buckets 50 60).2.1 (by norm_num) (by norm_num),
   (C8_strict_buckets 20 10).2.2.1 (by norm_num),
   (C8_strict_buckets 75 90).2.2.2.1 (by norm_num),
   (C8_strict_buckets 50 60).2.2.2.2.1 (by norm_num) (by norm_num),
   (C8_strict_buckets 20 10).2.2.2.2.2 (by norm_num)⟩

/-- C9: mock detection is a pure function of the canvas size — identical
width and height yield identical results, whatever the image path and the
rest of the metadata are. -/
theorem C9_mock_deterministic (p1 p2 : String) (d1 d2 : ImageDetails)
    (hw : d1.image_info.width = d2.image_info.width)
    (hh : d1.image_info.height = d2.image_info.height) :
    generate_mock_analysis_results p1 d1 = generate_mock_analysis_results p2 d2 := by
  simp [generate_mock_analysis_results, hw, hh]

/-- Witness for C9: two different files with entirely different metadata but
the same 640 by 480 canvas give identical mock results. -/
theorem C9_mock_deterministic_witness :
    details640 ≠ details640b ∧
    generate_mock_analysis_results "shot.png" details640 =
      generate_mock_analysis_results "other.bmp" details640b :=
  ⟨by decide,
   C9_mock_deterministic "shot.png" "other.bmp" details640 details640b rfl rfl⟩

/-- C10: the real-mode report builder always emits the OCR block
detected = false, text = "", regions = [], and the renderer's OCR-overlay
guard therefore draws no OCR region for such a report. -/
theorem C10_real_mode_ocr (p : String) (d : ImageDetails)
    (det : DetectionResults) :
    (build_analysis_results p d det).ocr =
      { detected := false, confidence := none, text := "", regions := [] } ∧
    ocrRegionsToDraw (build_analysis_results p d det) = [] :=
  ⟨rfl, rfl⟩

end ScreenshotAnalyzer
